import Mathlib

/-!
Shallow embedding of the authentication/authorization core of the
user-auth task-tracking backend (Express + Prisma + jsonwebtoken + bcrypt),
translated from:
  backend/src/controllers/auth.controller.ts
  backend/src/controllers/task.controller.ts
  backend/src/middleware/auth.middleware.ts
  backend/src/middleware/error.middleware.ts
  backend/src/utils/jwt.ts
  prisma schema (models User, Task, enum TaskStatus)

External collaborators (the jsonwebtoken sign/verify pair and bcrypt) are
modelled at their documented contracts: a signed token is a record of its
payload, signing secret and expiry, and verification succeeds exactly when
the secrets match and the expiry has not elapsed; bcrypt hashing is an
abstract function parameter.  Request-body fields are `Option`-valued to
model absent JSON fields; JavaScript falsiness of a string field (absent,
null or empty) is `falsyStr`.
-/

namespace UserAuth

/-- JavaScript falsiness of an optional string request field:
`undefined`/`null` (modelled as `none`) and the empty string are falsy. -/
def falsyStr : Option String → Bool
  | none => true
  | some s => s == ""

/-- Prisma enum `TaskStatus { TODO IN_PROGRESS DONE }`. -/
inductive TaskStatus
  | TODO
  | IN_PROGRESS
  | DONE
deriving DecidableEq, Repr

/-- Prisma model `Task` (timestamps omitted: no claim depends on them).
`description` is nullable (`String?` in the schema). -/
structure Task where
  id : String
  title : String
  description : Option String
  status : TaskStatus
  userId : String
deriving DecidableEq, Repr

/-- Prisma model `User`.  The `password` column stores the bcrypt hash.
`createdAt` is an abstract timestamp. -/
structure User where
  id : String
  email : String
  password : String
  name : Option String
  createdAt : Nat
deriving DecidableEq, Repr

/-- `prisma.task.findUnique({ where: { id } })` over an explicit store. -/
def findUniqueTask (tasks : List Task) (id : String) : Option Task :=
  tasks.find? (fun t => t.id == id)

/-- `prisma.user.findUnique({ where: { email } })` over an explicit store. -/
def findUniqueUserByEmail (users : List User) (email : String) : Option User :=
  users.find? (fun u => u.email == email)

/-- The runtime classes of errors reaching `errorHandler`
(error.middleware.ts): the custom `ApiError`, Prisma's
`PrismaClientKnownRequestError` (carrying a code such as P2002 and a raw
message), the jsonwebtoken errors, and any other `Error`.  In the
jsonwebtoken library `TokenExpiredError` is a subclass of
`JsonWebTokenError`, which the `instanceof` predicates below reflect. -/
inductive JsErr
  | apiError (statusCode : Nat) (message : String)
  | prismaKnownRequestError (code : String) (message : String)
  | jsonWebTokenError (message : String)
  | tokenExpiredError (message : String) (expiredAt : Nat)
  | otherError (message : String)
deriving DecidableEq, Repr

/-- `err instanceof ApiError`. -/
def JsErr.isApiError : JsErr → Bool
  | .apiError _ _ => true
  | _ => false

/-- `err instanceof PrismaClientKnownRequestError`. -/
def JsErr.isPrismaKnownRequestError : JsErr → Bool
  | .prismaKnownRequestError _ _ => true
  | _ => false

/-- `err instanceof jwt.JsonWebTokenError`; true also for
`TokenExpiredError`, which subclasses it in the jsonwebtoken library. -/
def JsErr.isJsonWebTokenError : JsErr → Bool
  | .jsonWebTokenError _ => true
  | .tokenExpiredError _ _ => true
  | _ => false

/-- `err instanceof jwt.TokenExpiredError`. -/
def JsErr.isTokenExpiredError : JsErr → Bool
  | .tokenExpiredError _ _ => true
  | _ => false

/-- `err.message` (every JavaScript `Error` has one). -/
def JsErr.message : JsErr → String
  | .apiError _ m => m
  | .prismaKnownRequestError _ m => m
  | .jsonWebTokenError m => m
  | .tokenExpiredError m _ => m
  | .otherError m => m

/-- `err.statusCode`, read only under the `isApiError` guard. -/
def JsErr.statusCode : JsErr → Nat
  | .apiError c _ => c
  | _ => 0

/-- The JSON error envelope produced by `errorHandler` together with the
HTTP status it is sent with: `{success:false, message, error?}`. -/
structure ErrorResponse where
  status : Nat
  success : Bool
  message : String
  error : Option String
deriving DecidableEq, Repr

/-- `createErrorResponse` spreads `...(error && { error })`: an absent or
empty diagnostic string yields no `error` field. -/
def optField (s : String) : Option String :=
  if s == "" then none else some s

/-- `errorHandler` (error.middleware.ts): the boundary mapping every error
passed to `next` to an HTTP response.  The `instanceof` chain is checked
in source order: `ApiError`, then `PrismaClientKnownRequestError` (mapped
to 400 with the raw store message as diagnostic), then
`JsonWebTokenError`, then `TokenExpiredError`, else 500 (message exposed
only in development mode). -/
def errorHandler (devMode : Bool) (err : JsErr) : ErrorResponse :=
  if err.isApiError then
    ⟨err.statusCode, false, err.message, none⟩
  else if err.isPrismaKnownRequestError then
    ⟨400, false, "Database error occurred", optField err.message⟩
  else if err.isJsonWebTokenError then
    ⟨401, false, "Invalid token", none⟩
  else if err.isTokenExpiredError then
    ⟨401, false, "Token expired", none⟩
  else
    ⟨500, false, "Internal Server Error", if devMode then optField err.message else none⟩

/-- The `{userId, email}` claim signed into tokens (utils/jwt.ts). -/
structure JwtPayload where
  userId : String
  email : String
deriving DecidableEq, Repr

/-- Idealised signed JWT, modelling the jsonwebtoken contract: a token
produced by `jwt.sign(payload, secret, {expiresIn})` carries its payload,
the signing secret and the absolute expiry time. -/
structure SignedToken where
  payload : JwtPayload
  secret : String
  exp : Nat
deriving DecidableEq, Repr

/-- `jwt.verify(token, secret)` at clock time `now`: a signature made with
a different secret fails with `JsonWebTokenError`; a matching signature
past its expiry fails with `TokenExpiredError`; otherwise the decoded
payload is returned. -/
def jwtVerify (tok : SignedToken) (secret : String) (now : Nat) : Except JsErr JwtPayload :=
  if tok.secret ≠ secret then
    .error (.jsonWebTokenError "invalid signature")
  else if tok.exp ≤ now then
    .error (.tokenExpiredError "jwt expired" tok.exp)
  else
    .ok tok.payload

/-- The environment variables read by utils/jwt.ts and
auth.middleware.ts; expiries in seconds. -/
structure Env where
  jwtSecret : Option String
  jwtRefreshSecret : Option String
  jwtExpiresIn : Option Nat
  jwtRefreshExpiresIn : Option Nat
deriving DecidableEq, Repr

/-- `generateAccessToken` (utils/jwt.ts): signs the payload with
`JWT_SECRET` and expiry `JWT_EXPIRES_IN || '1h'`; throws a plain `Error`
when the secret is unset. -/
def generateAccessToken (env : Env) (now : Nat) (user : JwtPayload) : Except String SignedToken :=
  match env.jwtSecret with
  | none => .error "JWT_SECRET is not defined in environment variables"
  | some secret => .ok ⟨user, secret, now + env.jwtExpiresIn.getD 3600⟩

/-- `generateRefreshToken` (utils/jwt.ts): signs the payload with
`JWT_REFRESH_SECRET` and expiry `JWT_REFRESH_EXPIRES_IN || '7d'`. -/
def generateRefreshToken (env : Env) (now : Nat) (user : JwtPayload) : Except String SignedToken :=
  match env.jwtRefreshSecret with
  | none => .error "JWT_REFRESH_SECRET is not defined in environment variables"
  | some secret => .ok ⟨user, secret, now + env.jwtRefreshExpiresIn.getD 604800⟩

/-- `verifyRefreshToken` (utils/jwt.ts): `jwt.verify(token, JWT_REFRESH_SECRET)`;
throws a plain `Error` when the secret is unset, otherwise propagates the
jsonwebtoken outcome. -/
def verifyRefreshToken (env : Env) (tok : SignedToken) (now : Nat) : Except JsErr JwtPayload :=
  match env.jwtRefreshSecret with
  | none => .error (.otherError "JWT_REFRESH_SECRET is not defined in environment variables")
  | some secret => jwtVerify tok secret now

/-- The `Authorization` header as the auth middleware branches on it:
absent, present without the `Bearer ` scheme, `Bearer` with an empty token
part, or `Bearer <token>`. -/
inductive BearerHeader
  | missing
  | nonBearer (raw : String)
  | bearerEmpty
  | bearerToken (tok : SignedToken)
deriving DecidableEq, Repr

/-- The `try` body of `authenticate` (auth.middleware.ts): header checks
throw `ApiError`s; a token is verified against `JWT_SECRET` (an unset
secret makes `jwt.verify` throw a `JsonWebTokenError`). -/
def authenticateTry (env : Env) (now : Nat) (h : BearerHeader) : Except JsErr JwtPayload :=
  match h with
  | .missing => .error (.apiError 401 "Authentication required. Please log in.")
  | .nonBearer _ => .error (.apiError 401 "Authentication required. Please log in.")
  | .bearerEmpty => .error (.apiError 401 "Authentication token missing")
  | .bearerToken tok =>
    match env.jwtSecret with
    | none => .error (.jsonWebTokenError "secret or public key must be provided")
    | some secret => jwtVerify tok secret now

/-- The `catch` block of `authenticate`, in source order: first
`instanceof jwt.JsonWebTokenError` maps to 401 "Invalid token", then
`instanceof jwt.TokenExpiredError` maps to 401 "Token expired", else the
error is forwarded unchanged to `next`. -/
def authCatch (e : JsErr) : JsErr :=
  if e.isJsonWebTokenError then .apiError 401 "Invalid token"
  else if e.isTokenExpiredError then .apiError 401 "Token expired"
  else e

/-- `authenticate` (auth.middleware.ts): on success the resolved
`{userId, email}` is attached to the request; on failure the error passed
to `next` (and hence to `errorHandler`) is returned. -/
def authenticate (env : Env) (now : Nat) (h : BearerHeader) : Except JsErr JwtPayload :=
  match authenticateTry env now h with
  | .ok p => .ok p
  | .error e => .error (authCatch e)

/-- A JSON value as it appears in a response body field. -/
inductive JsonVal
  | str (s : String)
  | nullVal
  | num (n : Nat)
deriving DecidableEq, Repr

/-- Body of `POST /api/auth/register`; each field may be absent. -/
structure RegisterRequestBody where
  email : Option String
  password : Option String
  name : Option String
deriving DecidableEq, Repr

/-- `register` (auth.controller.ts), parametrised by the bcrypt hashing
function (salting absorbed into `hash`) and by the store-generated id and
timestamp of the new row.  Returns the handler outcome — on success the
response `data` object produced by the Prisma `select {id, email, name,
createdAt}` projection, as a field list — together with the post-state of
the user store.  `name: name || null` coerces a falsy name to null. -/
def register (hash : String → String) (users : List User) (newId : String) (now : Nat)
    (body : RegisterRequestBody) :
    Except JsErr (List (String × JsonVal)) × List User :=
  if falsyStr body.email || falsyStr body.password then
    (.error (.apiError 400 "Email and password are required"), users)
  else
    match findUniqueUserByEmail users (body.email.getD "") with
    | some _ => (.error (.apiError 409 "User with this email already exists"), users)
    | none =>
      let hashedPassword := hash (body.password.getD "")
      let newUser : User :=
        { id := newId
          email := body.email.getD ""
          password := hashedPassword
          name := if falsyStr body.name then none else body.name
          createdAt := now }
      let data : List (String × JsonVal) :=
        [ ("id", .str newUser.id)
        , ("email", .str newUser.email)
        , ("name", match newUser.name with | some n => .str n | none => .nullVal)
        , ("createdAt", .num newUser.createdAt) ]
      (.ok data, users ++ [newUser])

/-- Body of `POST /api/auth/login`. -/
structure LoginRequestBody where
  email : Option String
  password : Option String
deriving DecidableEq, Repr

/-- The success payload of `login`: sanitized user plus both tokens. -/
structure LoginData where
  userId : String
  userEmail : String
  userName : Option String
  accessToken : SignedToken
  refreshToken : SignedToken
deriving DecidableEq, Repr

/-- `login` (auth.controller.ts), parametrised by `bcrypt.compare`.
Missing fields give 400; an unknown email and a failed password
comparison each give `ApiError 401 "Invalid email or password"`. -/
def login (compare : String → String → Bool) (env : Env) (now : Nat) (users : List User)
    (body : LoginRequestBody) : Except JsErr LoginData :=
  if falsyStr body.email || falsyStr body.password then
    .error (.apiError 400 "Email and password are required")
  else
    match findUniqueUserByEmail users (body.email.getD "") with
    | none => .error (.apiError 401 "Invalid email or password")
    | some user =>
      if ! compare (body.password.getD "") user.password then
        .error (.apiError 401 "Invalid email or password")
      else
        match generateAccessToken env now ⟨user.id, user.email⟩,
              generateRefreshToken env now ⟨user.id, user.email⟩ with
        | .ok a, .ok r => .ok ⟨user.id, user.email, user.name, a, r⟩
        | .error m, _ => .error (.otherError m)
        | _, .error m => .error (.otherError m)

/-- `getTaskById` (task.controller.ts): authentication, then existence
(404), then ownership (403), then the task itself as response data. -/
def getTaskById (tasks : List Task) (authUserId : Option String) (id : String) :
    Except JsErr Task :=
  match authUserId with
  | none => .error (.apiError 401 "Authentication required")
  | some userId =>
    match findUniqueTask tasks id with
    | none => .error (.apiError 404 "Task not found")
    | some task =>
      if task.userId ≠ userId then
        .error (.apiError 403 "You do not have permission to access this task")
      else
        .ok task

/-- Body of `POST /api/tasks`.  The handler destructures only `title`,
`description` and `status`; `bodyUserId` stands for a client-supplied
`userId` field, which the destructuring never reads. -/
structure CreateTaskRequestBody where
  title : Option String
  description : Option String
  status : Option TaskStatus
  bodyUserId : Option String
deriving DecidableEq, Repr

/-- `createTask` (task.controller.ts): a falsy title gives 400 before any
store write; otherwise the row is created with `status: status || 'TODO'`
and `userId` taken from the authenticated request, and returned as
response data.  The second component is the post-state of the store. -/
def createTask (tasks : List Task) (newId : String) (authUserId : Option String)
    (body : CreateTaskRequestBody) : Except JsErr Task × List Task :=
  match authUserId with
  | none => (.error (.apiError 401 "Authentication required"), tasks)
  | some userId =>
    if falsyStr body.title then
      (.error (.apiError 400 "Title is required"), tasks)
    else
      let task : Task :=
        { id := newId
          title := body.title.getD ""
          description := body.description
          status := body.status.getD .TODO
          userId := userId }
      (.ok task, tasks ++ [task])

/-- Body of `PUT /api/tasks/:id`.  `description` distinguishes an absent
field (`none`) from an explicit JSON null (`some none`), since the source
tests `description !== undefined` and null passes that test. -/
structure UpdateTaskRequestBody where
  title : Option String
  description : Option (Option String)
  status : Option TaskStatus
deriving DecidableEq, Repr

/-- `updateTask` (task.controller.ts): authentication, existence (404),
ownership (403); then each of title/description/status present in the
body (`!== undefined`) replaces the prior value and each absent field
keeps it.  Returns the updated task and the post-state of the store. -/
def updateTask (tasks : List Task) (authUserId : Option String) (id : String)
    (body : UpdateTaskRequestBody) : Except JsErr Task × List Task :=
  match authUserId with
  | none => (.error (.apiError 401 "Authentication required"), tasks)
  | some userId =>
    match findUniqueTask tasks id with
    | none => (.error (.apiError 404 "Task not found"), tasks)
    | some existingTask =>
      if existingTask.userId ≠ userId then
        (.error (.apiError 403 "You do not have permission to update this task"), tasks)
      else
        let updatedTask : Task :=
          { existingTask with
            title := match body.title with | some t => t | none => existingTask.title
            description := body.description.getD existingTask.description
            status := body.status.getD existingTask.status }
        (.ok updatedTask, tasks.map (fun t => if t.id == id then updatedTask else t))

/-- `deleteTask` (task.controller.ts): authentication, existence (404),
ownership (403); then the row is removed and the response data is null. -/
def deleteTask (tasks : List Task) (authUserId : Option String) (id : String) :
    Except JsErr Unit × List Task :=
  match authUserId with
  | none => (.error (.apiError 401 "Authentication required"), tasks)
  | some userId =>
    match findUniqueTask tasks id with
    | none => (.error (.apiError 404 "Task not found"), tasks)
    | some existingTask =>
      if existingTask.userId ≠ userId then
        (.error (.apiError 403 "You do not have permission to delete this task"), tasks)
      else
        (.ok (), tasks.filter (fun t => ! (t.id == id)))

/-- Claim C1: for an authenticated user `u` and task id `t`, each of
`getTaskById`, `updateTask` and `deleteTask` checks existence before
ownership: no task with id `t` fails with `ApiError 404 "Task not found"`;
a task owned by someone else fails with a 403 `ApiError` whose message is
a fixed constant containing no field of the task (and mutating handlers
leave the store unchanged); only an owned existing task proceeds. -/
theorem c1_task_ops_existence_before_ownership
    (tasks : List Task) (u t : String) (body : UpdateTaskRequestBody) :
    (findUniqueTask tasks t = none →
      getTaskById tasks (some u) t = .error (.apiError 404 "Task not found") ∧
      (updateTask tasks (some u) t body).1 = .error (.apiError 404 "Task not found") ∧
      (deleteTask tasks (some u) t).1 = .error (.apiError 404 "Task not found")) ∧
    (∀ task, findUniqueTask tasks t = some task → task.userId ≠ u →
      getTaskById tasks (some u) t =
        .error (.apiError 403 "You do not have permission to access this task") ∧
      (updateTask tasks (some u) t body).1 =
        .error (.apiError 403 "You do not have permission to update this task") ∧
      (updateTask tasks (some u) t body).2 = tasks ∧
      (deleteTask tasks (some u) t).1 =
        .error (.apiError 403 "You do not have permission to delete this task") ∧
      (deleteTask tasks (some u) t).2 = tasks) ∧
    (∀ task, findUniqueTask tasks t = some task → task.userId = u →
      getTaskById tasks (some u) t = .ok task ∧
      (∃ r, (updateTask tasks (some u) t body).1 = .ok r) ∧
      (deleteTask tasks (some u) t).1 = .ok ()) := by
  refine ⟨fun h => ?_, fun task h hne => ?_, fun task h he => ?_⟩
  · simp [getTaskById, updateTask, deleteTask, h]
  · simp [getTaskById, updateTask, deleteTask, h, hne]
  · simp [getTaskById, updateTask, deleteTask, h, he]

/-- Witness for C1 at a concrete store: user bob probing alice's existing
task gets the constant 403 error. -/
theorem c1_witness :
    getTaskById [⟨"t1", "A", none, .TODO, "alice"⟩] (some "bob") "t1" =
      .error (.apiError 403 "You do not have permission to access this task") :=
  ((c1_task_ops_existence_before_ownership
      [⟨"t1", "A", none, .TODO, "alice"⟩] "bob" "t1" ⟨none, none, none⟩).2.1
    ⟨"t1", "A", none, .TODO, "alice"⟩ (by decide) (by decide)).1

/-- Claim C2: with both fields present, login against a non-existent
email and login against a registered email with a wrong password return
the identical failure: `ApiError 401 "Invalid email or password"`. -/
theorem c2_login_enumeration_resistance
    (compare : String → String → Bool) (env : Env) (now : Nat) (users : List User)
    (e1 p1 e2 p2 : String) (u : User)
    (he1 : e1 ≠ "") (hp1 : p1 ≠ "") (he2 : e2 ≠ "") (hp2 : p2 ≠ "")
    (h1 : findUniqueUserByEmail users e1 = none)
    (h2 : findUniqueUserByEmail users e2 = some u)
    (hpw : compare p2 u.password = false) :
    login compare env now users ⟨some e1, some p1⟩ =
      .error (.apiError 401 "Invalid email or password") ∧
    login compare env now users ⟨some e2, some p2⟩ =
      .error (.apiError 401 "Invalid email or password") ∧
    login compare env now users ⟨some e1, some p1⟩ =
      login compare env now users ⟨some e2, some p2⟩ := by
  refine ⟨?_, ?_, ?_⟩ <;>
    simp [login, falsyStr, he1, hp1, he2, hp2, h1, h2, hpw]

/-- Witness for C2 at a concrete store: unknown email vs registered email
with wrong password (comparison function rejecting everything). -/
theorem c2_witness :
    login (fun _ _ => false) ⟨some "s", some "r", none, none⟩ 0
        [⟨"u1", "alice@example.com", "h", none, 0⟩]
        ⟨some "bob@example.com", some "pw"⟩ =
      .error (.apiError 401 "Invalid email or password") ∧
    login (fun _ _ => false) ⟨some "s", some "r", none, none⟩ 0
        [⟨"u1", "alice@example.com", "h", none, 0⟩]
        ⟨some "alice@example.com", some "pw"⟩ =
      .error (.apiError 401 "Invalid email or password") :=
  ⟨(c2_login_enumeration_resistance (fun _ _ => false) ⟨some "s", some "r", none, none⟩ 0
      [⟨"u1", "alice@example.com", "h", none, 0⟩]
      "bob@example.com" "pw" "alice@example.com" "pw" ⟨"u1", "alice@example.com", "h", none, 0⟩
      (by decide) (by decide) (by decide) (by decide)
      (by decide) (by decide) (by decide)).1,
   (c2_login_enumeration_resistance (fun _ _ => false) ⟨some "s", some "r", none, none⟩ 0
      [⟨"u1", "alice@example.com", "h", none, 0⟩]
      "bob@example.com" "pw" "alice@example.com" "pw" ⟨"u1", "alice@example.com", "h", none, 0⟩
      (by decide) (by decide) (by decide) (by decide)
      (by decide) (by decide) (by decide)).2.1⟩

/-- Claim C3, counterexample: the error boundary does NOT translate a
known store constraint violation (Prisma error code P2002, unique
constraint on email) to 409 Conflict; it maps it to status 400 with
message "Database error occurred" and the raw storage message exposed in
the diagnostic field. -/
theorem c3_counterexample :
    errorHandler false
        (.prismaKnownRequestError "P2002"
          "Unique constraint failed on the fields: (email)") =
      ⟨400, false, "Database error occurred",
        some "Unique constraint failed on the fields: (email)"⟩ ∧
    (errorHandler false
        (.prismaKnownRequestError "P2002"
          "Unique constraint failed on the fields: (email)")).status ≠ 409 := by
  decide

/-- Claim C3 as amended: the 409 Conflict for a duplicate email comes only
from register's explicit `findUnique` pre-check, which throws
`ApiError 409` and is mapped by the boundary to status 409; a known store
constraint violation reaching the error boundary is instead mapped to
status 400 with message "Database error occurred" and the raw storage
message attached as the diagnostic field, never to 409. -/
theorem c3_amended_conflict_from_precheck_not_boundary
    (devMode : Bool) (code msg : String) (hash : String → String)
    (users : List User) (newId : String) (now : Nat)
    (body : RegisterRequestBody) (u : User)
    (he : falsyStr body.email = false) (hp : falsyStr body.password = false)
    (hfind : findUniqueUserByEmail users (body.email.getD "") = some u) :
    (register hash users newId now body).1 =
      .error (.apiError 409 "User with this email already exists") ∧
    (register hash users newId now body).2 = users ∧
    errorHandler devMode (.apiError 409 "User with this email already exists") =
      ⟨409, false, "User with this email already exists", none⟩ ∧
    errorHandler devMode (.prismaKnownRequestError code msg) =
      ⟨400, false, "Database error occurred", optField msg⟩ := by
  refine ⟨?_, ?_, ?_, ?_⟩
  · simp [register, he, hp, hfind]
  · simp [register, he, hp, hfind]
  · simp [errorHandler, JsErr.isApiError, JsErr.statusCode, JsErr.message]
  · simp [errorHandler, JsErr.isApiError, JsErr.isPrismaKnownRequestError, JsErr.message]

/-- Witness for C3's amended theorem at a concrete duplicate-email
register request and a concrete P2002 store error. -/
theorem c3_amended_witness :
    (register (fun s => s) [⟨"u1", "alice@example.com", "h", none, 0⟩] "u2" 1
        ⟨some "alice@example.com", some "pw", none⟩).1 =
      .error (.apiError 409 "User with this email already exists") ∧
    errorHandler true (.prismaKnownRequestError "P2002" "unique violation") =
      ⟨400, false, "Database error occurred", optField "unique violation"⟩ :=
  ⟨(c3_amended_conflict_from_precheck_not_boundary true "P2002" "unique violation"
      (fun s => s) [⟨"u1", "alice@example.com", "h", none, 0⟩] "u2" 1
      ⟨some "alice@example.com", some "pw", none⟩ ⟨"u1", "alice@example.com", "h", none, 0⟩
      (by decide) (by decide) (by decide)).1,
   (c3_amended_conflict_from_precheck_not_boundary true "P2002" "unique violation"
      (fun s => s) [⟨"u1", "alice@example.com", "h", none, 0⟩] "u2" 1
      ⟨some "alice@example.com", some "pw", none⟩ ⟨"u1", "alice@example.com", "h", none, 0⟩
      (by decide) (by decide) (by decide)).2.2.2⟩

/-- Claim C4, code behaviour at the failing input: a well-formed Bearer
token signed with the configured access secret whose expiry has elapsed
is rejected with 401 "Invalid token", NOT the claimed distinct 401
"Token expired" — in the jsonwebtoken library `TokenExpiredError`
subclasses `JsonWebTokenError`, so the catch block's first `instanceof`
test captures expired tokens and the dedicated "Token expired" branch is
unreachable, as the final conjunct states for every error value. -/
theorem c4_expired_token_surfaces_as_invalid_token
    (env : Env) (s : String) (tok : SignedToken) (now : Nat)
    (hsec : env.jwtSecret = some s) (htok : tok.secret = s) (hexp : tok.exp ≤ now) :
    authenticate env now (.bearerToken tok) = .error (.apiError 401 "Invalid token") ∧
    authenticate env now (.bearerToken tok) ≠ .error (.apiError 401 "Token expired") ∧
    (∀ e : JsErr, e.isTokenExpiredError = true →
      authCatch e = .apiError 401 "Invalid token") := by
  refine ⟨?_, ?_, ?_⟩
  · simp [authenticate, authenticateTry, hsec, jwtVerify, htok, hexp, authCatch,
      JsErr.isJsonWebTokenError]
  · simp [authenticate, authenticateTry, hsec, jwtVerify, htok, hexp, authCatch,
      JsErr.isJsonWebTokenError]
  · intro e hexpErr
    cases e <;> simp_all [JsErr.isTokenExpiredError, authCatch, JsErr.isJsonWebTokenError]

/-- Witness for C4's theorem: a concrete expired token signed with the
configured secret is answered with 401 "Invalid token". -/
theorem c4_witness :
    authenticate ⟨some "s", some "r", none, none⟩ 100
        (.bearerToken ⟨⟨"u1", "alice@example.com"⟩, "s", 50⟩) =
      .error (.apiError 401 "Invalid token") :=
  (c4_expired_token_surfaces_as_invalid_token ⟨some "s", some "r", none, none⟩ "s"
      ⟨⟨"u1", "alice@example.com"⟩, "s", 50⟩ 100
      (by decide) (by decide) (by decide)).1

/-- Claim C5: for an existing task owned by the requester, `updateTask`
replaces exactly the fields present in the body (an explicit null for
description — `some none` — replaces the prior value) and keeps every
absent field at its prior value; in particular a body carrying only
`status` leaves title and description unchanged. -/
theorem c5_update_replaces_present_fields_only
    (tasks : List Task) (u id : String) (body : UpdateTaskRequestBody) (t : Task)
    (hfind : findUniqueTask tasks id = some t) (hown : t.userId = u) :
    ∃ updated, (updateTask tasks (some u) id body).1 = .ok updated ∧
      updated.title = body.title.getD t.title ∧
      updated.description = body.description.getD t.description ∧
      updated.status = body.status.getD t.status ∧
      updated.id = t.id ∧ updated.userId = t.userId ∧
      (body.title = none → updated.title = t.title) ∧
      (body.description = none → updated.description = t.description) ∧
      (body.description = some none → updated.description = none) ∧
      (body.status = none → updated.status = t.status) := by
  have hres : (updateTask tasks (some u) id body).1 = .ok
      { t with
        title := match body.title with | some s => s | none => t.title
        description := body.description.getD t.description
        status := body.status.getD t.status } := by
    simp [updateTask, hfind, hown]
  refine ⟨_, hres, ?_, by simp, by simp, by simp, by simp, ?_, ?_, ?_, ?_⟩
  · cases body.title <;> simp
  · intro h; simp [h]
  · intro h; simp [h]
  · intro h; simp [h]
  · intro h; simp [h]

/-- Witness for C5: updating alice's task with only `{status := DONE}`
keeps title "A" and description null. -/
theorem c5_witness :
    ∃ updated,
      (updateTask [⟨"t1", "A", none, .TODO, "alice"⟩] (some "alice") "t1"
          ⟨none, none, some .DONE⟩).1 = .ok updated ∧
      updated.title = "A" ∧ updated.description = none ∧ updated.status = .DONE := by
  obtain ⟨updated, h1, h2, h3, h4, -⟩ :=
    c5_update_replaces_present_fields_only [⟨"t1", "A", none, .TODO, "alice"⟩] "alice" "t1"
      ⟨none, none, some .DONE⟩ ⟨"t1", "A", none, .TODO, "alice"⟩ (by decide) (by decide)
  exact ⟨updated, h1, by simpa using h2, by simpa using h3, by simpa using h4⟩

/-- Claim C6: authenticated `createTask` with a falsy (empty or missing)
title fails with 400 and leaves the store unchanged; otherwise the
created task's status is the supplied status, defaulting to TODO when
absent, and its `userId` is the authenticated requester's id — the body
(including any client-supplied `bodyUserId`) is universally quantified,
so the owner is forced regardless of what the body carries. -/
theorem c6_createTask_validation_default_owner
    (tasks : List Task) (newId u : String) (body : CreateTaskRequestBody) :
    (falsyStr body.title = true →
      (createTask tasks newId (some u) body).1 =
        .error (.apiError 400 "Title is required") ∧
      (createTask tasks newId (some u) body).2 = tasks) ∧
    (falsyStr body.title = false →
      ∃ task, (createTask tasks newId (some u) body).1 = .ok task ∧
        (createTask tasks newId (some u) body).2 = tasks ++ [task] ∧
        task.status = body.status.getD .TODO ∧
        task.userId = u ∧
        task.title = body.title.getD "" ∧
        task.description = body.description ∧
        task.id = newId) := by
  constructor
  · intro h; simp [createTask, h]
  · intro h
    refine ⟨{ id := newId, title := body.title.getD "", description := body.description,
              status := body.status.getD .TODO, userId := u },
            ?_, ?_, rfl, rfl, rfl, rfl, rfl⟩
    · simp [createTask, h]
    · simp [createTask, h]

/-- Witness for C6: a body that omits status and smuggles a foreign
userId yields a task with status TODO owned by the requester; an empty
title is rejected with 400. -/
theorem c6_witness :
    (∃ task,
      (createTask [] "t1" (some "alice")
          ⟨some "A", none, none, some "mallory"⟩).1 = .ok task ∧
      task.status = .TODO ∧ task.userId = "alice") ∧
    (createTask [] "t2" (some "alice") ⟨some "", none, none, none⟩).1 =
      .error (.apiError 400 "Title is required") := by
  constructor
  · obtain ⟨task, h1, -, h3, h4, -⟩ :=
      (c6_createTask_validation_default_owner [] "t1" "alice"
        ⟨some "A", none, none, some "mallory"⟩).2 (by decide)
    exact ⟨task, h1, by simpa using h3, h4⟩
  · exact ((c6_createTask_validation_default_owner [] "t2" "alice"
      ⟨some "", none, none, none⟩).1 (by decide)).1

/-- Claim C7: register with a falsy email or password fails with 400 and
creates no user; an email already in the store fails with 409 and
creates no user; on success the response data is exactly the four fields
id, email, name, createdAt (so the password hash appears nowhere in it),
and the stored user's password column holds `hash password`, which
differs from the plaintext whenever the hash function is not the
identity on it. -/
theorem c7_register_validation_conflict_and_projection
    (hash : String → String) (users : List User) (newId : String) (now : Nat)
    (body : RegisterRequestBody) :
    ((falsyStr body.email = true ∨ falsyStr body.password = true) →
      (register hash users newId now body).1 =
        .error (.apiError 400 "Email and password are required") ∧
      (register hash users newId now body).2 = users) ∧
    (falsyStr body.email = false → falsyStr body.password = false →
      (∀ u, findUniqueUserByEmail users (body.email.getD "") = some u →
        (register hash users newId now body).1 =
          .error (.apiError 409 "User with this email already exists") ∧
        (register hash users newId now body).2 = users) ∧
      (findUniqueUserByEmail users (body.email.getD "") = none →
        (register hash users newId now body).1 =
          .ok [ ("id", .str newId)
              , ("email", .str (body.email.getD ""))
              , ("name", if falsyStr body.name then .nullVal
                         else .str (body.name.getD ""))
              , ("createdAt", .num now) ] ∧
        (register hash users newId now body).2 =
          users ++ [⟨newId, body.email.getD "", hash (body.password.getD ""),
                     if falsyStr body.name then none else body.name, now⟩] ∧
        (hash (body.password.getD "") ≠ body.password.getD "" →
          ∀ stored, (register hash users newId now body).2 = users ++ [stored] →
            stored.password ≠ body.password.getD ""))) := by
    refine ⟨fun h => ?_, fun he hp => ⟨fun u hu => ?_, fun hnone => ⟨?_, ?_, ?_⟩⟩⟩
    · rcases h with h | h <;> simp [register, h]
    · simp [register, he, hp, hu]
    · simp [register, he, hp, hnone]
      cases hn : body.name <;> simp [hn, falsyStr]
      rename_i v
      cases hv : (v == "") <;> simp_all [falsyStr]
    · simp [register, he, hp, hnone]
    · intro hh stored hstored
      have : stored = ⟨newId, body.email.getD "", hash (body.password.getD ""),
          if falsyStr body.name then none else body.name, now⟩ := by
        have h2 : (register hash users newId now body).2 =
            users ++ [⟨newId, body.email.getD "", hash (body.password.getD ""),
                       if falsyStr body.name then none else body.name, now⟩] := by
          simp [register, he, hp, hnone]
        rw [h2] at hstored
        simpa using hstored.symm
      rw [this]
      simpa using hh

/-- Witness for C7 at a fresh registration: the response data is exactly
the four selected fields and the stored password is the hash image. -/
theorem c7_witness :
    (register (fun s => String.append "hashed-" s) [] "u1" 5
        ⟨some "alice@example.com", some "pw", some "Alice"⟩).1 =
      .ok [ ("id", .str "u1"), ("email", .str "alice@example.com")
          , ("name", .str "Alice"), ("createdAt", .num 5) ] ∧
    (register (fun s => String.append "hashed-" s) [] "u1" 5
        ⟨some "alice@example.com", some "pw", some "Alice"⟩).2 =
      [⟨"u1", "alice@example.com", "hashed-pw", some "Alice", 5⟩] := by
  obtain ⟨h1, h2, -⟩ :=
    ((c7_register_validation_conflict_and_projection
        (fun s => String.append "hashed-" s) [] "u1" 5
        ⟨some "alice@example.com", some "pw", some "Alice"⟩).2
      (by decide) (by decide)).2 (by decide)
  exact ⟨by simpa using h1, by simpa using h2⟩

/-- Claim C8: access tokens are signed with `JWT_SECRET` and refresh
tokens with `JWT_REFRESH_SECRET`; when the two configured secrets
differ, `verifyRefreshToken` rejects every token produced by
`generateAccessToken` (invalid signature), and the auth middleware's
verification rejects every token produced by `generateRefreshToken`
(surfacing as 401 "Invalid token"), at every clock time. -/
theorem c8_access_and_refresh_secrets_independent
    (env : Env) (s1 s2 : String) (now : Nat) (payload : JwtPayload)
    (h1 : env.jwtSecret = some s1) (h2 : env.jwtRefreshSecret = some s2)
    (hne : s1 ≠ s2) :
    generateAccessToken env now payload =
      .ok ⟨payload, s1, now + env.jwtExpiresIn.getD 3600⟩ ∧
    generateRefreshToken env now payload =
      .ok ⟨payload, s2, now + env.jwtRefreshExpiresIn.getD 604800⟩ ∧
    (∀ tok now2, generateAccessToken env now payload = .ok tok →
      verifyRefreshToken env tok now2 =
        .error (.jsonWebTokenError "invalid signature")) ∧
    (∀ tok now2, generateRefreshToken env now payload = .ok tok →
      authenticate env now2 (.bearerToken tok) =
        .error (.apiError 401 "Invalid token")) := by
  refine ⟨by simp [generateAccessToken, h1], by simp [generateRefreshToken, h2], ?_, ?_⟩
  · intro tok now2 htok
    rw [generateAccessToken, h1] at htok
    cases htok
    simp [verifyRefreshToken, h2, jwtVerify, hne]
  · intro tok now2 htok
    have hne2 : s2 ≠ s1 := fun h => hne h.symm
    rw [generateRefreshToken, h2] at htok
    cases htok
    simp [authenticate, authenticateTry, h1, jwtVerify, hne2, authCatch,
      JsErr.isJsonWebTokenError]

/-- Witness for C8 with two concrete distinct secrets: the refresh
verifier rejects the freshly issued access token, and the auth
middleware rejects the freshly issued refresh token. -/
theorem c8_witness :
    verifyRefreshToken ⟨some "acc", some "ref", none, none⟩
        ⟨⟨"u1", "alice@example.com"⟩, "acc", 3600⟩ 0 =
      .error (.jsonWebTokenError "invalid signature") ∧
    authenticate ⟨some "acc", some "ref", none, none⟩ 0
        (.bearerToken ⟨⟨"u1", "alice@example.com"⟩, "ref", 604800⟩) =
      .error (.apiError 401 "Invalid token") := by
  obtain ⟨ha, hr, hv, hm⟩ :=
    c8_access_and_refresh_secrets_independent ⟨some "acc", some "ref", none, none⟩
      "acc" "ref" 0 ⟨"u1", "alice@example.com"⟩ rfl rfl (by decide)
  exact ⟨hv ⟨⟨"u1", "alice@example.com"⟩, "acc", 3600⟩ 0 ha,
         hm ⟨⟨"u1", "alice@example.com"⟩, "ref", 604800⟩ 0 hr⟩

/-- Claim C9, code behaviour at the failing input: `updateTask` applies a
present `title` field without any non-emptiness validation, so updating
an existing owned task with body `{title: ""}` succeeds (200) and
persists a task whose title is the empty string — violating the claimed
invariant that every persisted task has a non-empty title. -/
theorem c9_updateTask_persists_empty_title :
    (updateTask [⟨"t1", "A", none, .TODO, "alice"⟩] (some "alice") "t1"
        ⟨some "", none, none⟩).1 =
      .ok ⟨"t1", "", none, .TODO, "alice"⟩ ∧
    (updateTask [⟨"t1", "A", none, .TODO, "alice"⟩] (some "alice") "t1"
        ⟨some "", none, none⟩).2 =
      [⟨"t1", "", none, .TODO, "alice"⟩] := by
  constructor <;> rfl

/-- Claim C10: register coerces a falsy `name` (absent or the empty
string) to null: the stored user's name is `none` and the response data
echoes `name: null`. -/
theorem c10_register_coerces_falsy_name_to_null
    (hash : String → String) (users : List User) (newId : String) (now : Nat)
    (email pw : String) (name : Option String)
    (hn : falsyStr name = true) (he : email ≠ "") (hp : pw ≠ "")
    (hfind : findUniqueUserByEmail users email = none) :
    (register hash users newId now ⟨some email, some pw, name⟩).1 =
      .ok [ ("id", .str newId), ("email", .str email)
          , ("name", .nullVal), ("createdAt", .num now) ] ∧
    (register hash users newId now ⟨some email, some pw, name⟩).2 =
      users ++ [⟨newId, email, hash pw, none, now⟩] := by
  rcases name with _ | s
  · constructor <;> simp [register, falsyStr, he, hp, hfind]
  · have hs : s = "" := by simpa [falsyStr] using hn
    subst hs
    constructor <;> simp [register, falsyStr, he, hp, hfind]

/-- Witness for C10: registering with `name: ""` stores and returns a
null name. -/
theorem c10_witness :
    (register (fun s => String.append "hashed-" s) [] "u1" 5
        ⟨some "alice@example.com", some "pw", some ""⟩).1 =
      .ok [ ("id", .str "u1"), ("email", .str "alice@example.com")
          , ("name", .nullVal), ("createdAt", .num 5) ] ∧
    (register (fun s => String.append "hashed-" s) [] "u1" 5
        ⟨some "alice@example.com", some "pw", some ""⟩).2 =
      [⟨"u1", "alice@example.com", "hashed-pw", none, 5⟩] := by
  have h := c10_register_coerces_falsy_name_to_null
    (fun s => String.append "hashed-" s) [] "u1" 5 "alice@example.com" "pw" (some "")
    (by decide) (by decide) (by decide) (by decide)
  exact ⟨h.1, by simpa using h.2⟩

end UserAuth
